import Mathlib

/-
Shallow embedding of the uwt handle-lifecycle stubs
(src/uwt_stubs_fs_poll.c and src/uwt_stubs_tty.c).

Pure control flow of each C stub is embedded as a Lean function that
returns the produced host value together with an explicit trace of the
side-effecting steps it performed (allocation, native calls, frees,
close requests, root-registry operations).  The results of the native
libuv calls are inputs (an environment record), since libuv itself is
out of scope.  Helpers that live elsewhere in the repository
(uwt_is_safe_string, the error translator, the registry macros, the
close sequence) are modelled from the specification and marked so.
-/

namespace Uwt

/-- Registry slots carried inside a handle: `cb_read` holds the user
callback, `cb_listen` the host-visible handle value. -/
inductive Slot where
  | cb_read
  | cb_listen
deriving DecidableEq

/-- One observable side-effecting step of a stub.  Native-call actions
record the status the native layer returned. -/
inductive Act where
  | allocHandle
  | nativeInit (res : Int)
  | nativeStart (res : Int)
  | nativeSetMode (res : Int)
  | freeHandle
  | closeHandle
  | grEnlarge
  | grRegister (s : Slot)
  | grRelease (s : Slot)
deriving DecidableEq

/-- Error identifiers of the shared error enumeration.  `UNKNOWN`
covers native codes outside the translated table. -/
inductive UwtErr where
  | E2BIG
  | EACCES
  | EBADF
  | ECHARSET
  | EINVAL
  | ENOENT
  | EPERM
  | ENOMEM
  | ENOBUFS
  | UWT_EFATAL
  | UNKNOWN (c : Int)
deriving DecidableEq

/-- Modelled from the spec: `Val_uwt_error`, the Error Code Translator:
a switch over the supported native status codes (unix-style libuv
values; a representative subset of the full table, which is larger but
has the same shape), with a catch-all for codes outside it. -/
def Val_uwt_error (c : Int) : UwtErr :=
  if c = -7 then .E2BIG
  else if c = -13 then .EACCES
  else if c = -9 then .EBADF
  else if c = -4080 then .ECHARSET
  else if c = -22 then .EINVAL
  else if c = -2 then .ENOENT
  else if c = -1 then .EPERM
  else if c = -12 then .ENOMEM
  else if c = -105 then .ENOBUFS
  else .UNKNOWN c

/-- The supported range of the translator: the native codes its switch
maps. -/
def uwt_supported_codes : List Int :=
  [-7, -13, -9, -4080, -22, -2, -1, -12, -105]

/-- Modelled from the spec: inspecting an error value recovers the
native status code it was translated from. -/
def uwt_err_code : UwtErr → Int
  | .E2BIG => -7
  | .EACCES => -13
  | .EBADF => -9
  | .ECHARSET => -4080
  | .EINVAL => -22
  | .ENOENT => -2
  | .EPERM => -1
  | .ENOMEM => -12
  | .ENOBUFS => -105
  | .UWT_EFATAL => -4094
  | .UNKNOWN c => c

/-- Tagged result value: exactly one of `Ok` or `Error` by
construction. -/
inductive UwtResult (α : Type) where
  | Ok (a : α)
  | Error (e : UwtErr)
deriving DecidableEq

/-- The host-visible fs-poll handle wrapper: `ptr` is the native struct
pointer field (0 once cleared), `registered` the registry slots pinned
for it, in registration order. -/
structure HandleVal where
  ptr : Nat
  registered : List Slot
deriving DecidableEq

/-- Modelled from the spec: `uwt_is_safe_string` accepts exactly the
strings whose bytes contain no embedded NUL, i.e. that survive the
safe-encoding check unchanged. -/
def uwt_is_safe_string (s : List Char) : Bool :=
  !(s.contains (Char.ofNat 0))

/-- The emptiness test of uwt_fs_poll_start: the C code reads byte 0 of
the string, which for the empty OCaml string is its NUL terminator. -/
def first_byte_is_nul (s : List Char) : Bool :=
  match s with
  | [] => true
  | c :: _ => c == Char.ofNat 0

/-- The UINT_VAL_RET_WRAP_EINVAL fit test: the interval must fit the
native unsigned 32-bit width. -/
def uint_fits (i : Int) : Bool :=
  decide (0 ≤ i ∧ i < 4294967296)

/-- Results of the environment around uwt_fs_poll_start: whether the
loop lookup succeeds, and the statuses the two native calls return. -/
structure FsPollEnv where
  loopOk : Bool
  initRes : Int
  startRes : Int
deriving DecidableEq

/-- Embedding of `uwt_fs_poll_start` (src/uwt_stubs_fs_poll.c).
Checks, in source order: safe string, byte 0 of the path, interval fit,
loop validity; then enlarges the registry, allocates the wrapper, runs
`uv_fs_poll_init`; on its failure frees the wrapper outright; otherwise
runs `uv_fs_poll_start`; on its failure requests the native close
sequence; on success registers the callback and the handle value. -/
def uwt_fs_poll_start (o_path : List Char) (o_interval : Int) (env : FsPollEnv) :
    UwtResult HandleVal × List Act :=
  if !(uwt_is_safe_string o_path) then
    (.Error .ECHARSET, [])
  else if first_byte_is_nul o_path then
    (.Error .EINVAL, [])
  else if !(uint_fits o_interval) then
    (.Error .EINVAL, [])
  else if !env.loopOk then
    (.Error .UWT_EFATAL, [])
  else if env.initRes < 0 then
    (.Error (Val_uwt_error env.initRes),
     [.grEnlarge, .allocHandle, .nativeInit env.initRes, .freeHandle])
  else if env.startRes < 0 then
    (.Error (Val_uwt_error env.startRes),
     [.grEnlarge, .allocHandle, .nativeInit env.initRes,
      .nativeStart env.startRes, .closeHandle])
  else
    (.Ok { ptr := 1, registered := [.cb_read, .cb_listen] },
     [.grEnlarge, .allocHandle, .nativeInit env.initRes,
      .nativeStart env.startRes, .grRegister .cb_read, .grRegister .cb_listen])

/-- Modelled from the spec: the completion of the native close sequence
(uwt__handle_finalize_close and the close callback) releases exactly
the registered slots and then frees the native struct once. -/
def close_sequence (registered : List Slot) : List Act :=
  registered.map Act.grRelease ++ [Act.freeHandle]

/-- Number of trace entries satisfying a predicate. -/
def countP (p : Act → Bool) (l : List Act) : Nat := (l.filter p).length

def isFree : Act → Bool
  | .freeHandle => true
  | _ => false

def isCloseReq : Act → Bool
  | .closeHandle => true
  | _ => false

def isRegister : Act → Bool
  | .grRegister _ => true
  | _ => false

def isRelease : Act → Bool
  | .grRelease _ => true
  | _ => false

def isNative : Act → Bool
  | .nativeInit _ => true
  | .nativeStart _ => true
  | .nativeSetMode _ => true
  | _ => false

def isAlloc : Act → Bool
  | .allocHandle => true
  | _ => false

/-- Whole-lifecycle trace of one fs-poll handle: the start call,
followed by the completion of a requested close (start-failure path) or
by an explicit user close of a successfully started handle, so that
every handle created by the start call reaches Closed. -/
def fs_poll_lifecycle (o_path : List Char) (o_interval : Int) (env : FsPollEnv) :
    List Act :=
  match uwt_fs_poll_start o_path o_interval env with
  | (.Ok h, acts) => acts ++ close_sequence h.registered
  | (.Error _, acts) =>
      acts ++ (if countP isCloseReq acts = 0 then [] else close_sequence [])

/-- Scans a trace: true when no registry registration occurs before the
first registry enlargement (vacuously true without registrations). -/
def enlarge_before_register : List Act → Bool
  | [] => true
  | Act.grEnlarge :: _ => true
  | Act.grRegister _ :: _ => false
  | _ :: t => enlarge_before_register t

/-- Modelled from the spec: the Root Registry as capacity and
occupancy. -/
structure Registry where
  cap : Nat
  used : Nat
deriving DecidableEq

/-- Modelled from the spec: GR_ROOT_ENLARGE grows the table on demand
so that at least two further values can be pinned. -/
def gr_root_enlarge (r : Registry) : Registry :=
  if r.cap < r.used + 2 then { r with cap := r.used + 2 } else r

/-- Modelled from the spec: pinning a value takes a free table slot and
fails when the table is full. -/
def gr_register (r : Registry) : Option Registry :=
  if r.used < r.cap then some { r with used := r.used + 1 } else none

/-- Replays the registry operations of a trace against a registry
state; `none` when some registration found the table full. -/
def run_registry : List Act → Registry → Option Registry
  | [], r => some r
  | Act.grEnlarge :: t, r => run_registry t (gr_root_enlarge r)
  | Act.grRegister _ :: t, r =>
      match gr_register r with
      | some r2 => run_registry t r2
      | none => none
  | Act.grRelease _ :: t, r => run_registry t { r with used := r.used - 1 }
  | _ :: t, r => run_registry t r

/-- A native stat record, as handed to the fs-poll callback (a
representative set of fields). -/
structure Stat where
  st_dev : Nat
  st_ino : Nat
  st_size : Nat
  st_mtime : Int
deriving DecidableEq

/-- The host-side stat value built by marshalling. -/
structure StatVal where
  dev : Nat
  ino : Nat
  size : Nat
  mtime : Int
deriving DecidableEq

/-- Modelled from the spec: `uwt__stat_to_value` marshals a native stat
record into a host value by copying every field — the host value shares
no storage with the native record. -/
def uwt__stat_to_value (s : Stat) : StatVal :=
  { dev := s.st_dev, ino := s.st_ino, size := s.st_size, mtime := s.st_mtime }

/-- One invocation of the user callback: the host-visible handle value
it receives and the result value passed along. -/
structure CbInvocation where
  handleVal : Nat
  param : UwtResult (StatVal × StatVal)
deriving DecidableEq

/-- Embedding of `fs_poll_cb` (src/uwt_stubs_fs_poll.c): the trampoline
run by the native loop.  HANDLE_CB_START is modelled from the spec as
skipping dispatch for a closed handle; otherwise the result value is an
`Error` of the translated status when it is negative, and `Ok` of the
two copied stat snapshots when it is non-negative, and the user
callback is invoked once with the handle value and that result. -/
def fs_poll_cb (hClosed : Bool) (hListenVal : Nat) (status : Int)
    (prev curr : Stat) : List CbInvocation :=
  if hClosed then []
  else if status < 0 then
    [{ handleVal := hListenVal, param := .Error (Val_uwt_error status) }]
  else
    [{ handleVal := hListenVal,
       param := .Ok (uwt__stat_to_value prev, uwt__stat_to_value curr) }]

/-- The native terminal modes of uv_tty_set_mode. -/
inductive UvTtyMode where
  | normal
  | raw
  | io
deriving DecidableEq

/-- Embedding of the switch in `uwt_tty_set_mode_na`
(src/uwt_stubs_tty.c): 2 maps to IO, 1 to RAW, 0 to NORMAL; any other
value hits the default case, whose `assert(false)` fires (first
component) and which falls through to case 0, so the defined mode for
out-of-range input is NORMAL. -/
def uwt_tty_mode_of (m : Int) : Bool × UvTtyMode :=
  if m = 2 then (false, .io)
  else if m = 1 then (false, .raw)
  else if m = 0 then (false, .normal)
  else (true, .normal)

/-- The host-visible tty handle wrapper state. -/
structure TtyHandle where
  ptr : Nat
  initFlag : Bool
  closed : Bool
  registered : List Slot
deriving DecidableEq

/-- Embedding of VAL_UWT_UNIT_RESULT: a negative native status becomes
`Error` of its translation, otherwise `Ok ()`. -/
def VAL_UWT_UNIT_RESULT (x : Int) : UwtResult Unit :=
  if x < 0 then .Error (Val_uwt_error x) else .Ok ()

/-- Embedding of `uwt_tty_set_mode_na` (src/uwt_stubs_tty.c).  The
HANDLE_INIT_NOUNINIT_NA guard is modelled from the spec as rejecting a
cleared or closed handle; otherwise the mode is mapped through the
switch, `uv_tty_set_mode` is called on it (`envRes` gives the status
the native layer returns for each mode), and that status is returned
through VAL_UWT_UNIT_RESULT.  The handle state is returned unchanged
alongside the trace. -/
def uwt_tty_set_mode (h : TtyHandle) (o_mode : Int) (envRes : UvTtyMode → Int) :
    UwtResult Unit × TtyHandle × List Act :=
  if h.ptr = 0 ∨ h.closed = true then (.Error .EBADF, h, [])
  else
    let r := envRes (uwt_tty_mode_of o_mode).2
    (VAL_UWT_UNIT_RESULT r, h, [.nativeSetMode r])

/-- Embedding of `uwt_tty_init` (src/uwt_stubs_tty.c): allocates the
wrapper, sets the initFlag, always calls `uv_tty_init` (status
`initRes`); on a negative status frees the wrapper, clears the
wrapper's handle field (ptr = 0) and returns the translated error;
otherwise returns the handle.  Second component: the wrapper value
visible after return. -/
def uwt_tty_init (fd : Int) (readable : Bool) (initRes : Int) :
    UwtResult TtyHandle × TtyHandle × List Act :=
  let h0 : TtyHandle := { ptr := 1, initFlag := true, closed := false, registered := [] }
  if initRes < 0 then
    (.Error (Val_uwt_error initRes), { h0 with ptr := 0 },
     [.allocHandle, .nativeInit initRes, .freeHandle])
  else
    (.Ok h0, h0, [.allocHandle, .nativeInit initRes])

/-- A snapshot of the tty handle's bookkeeping at one program point of
uwt_tty_init: the initFlag, whether the native init call has been made,
whether it has succeeded, and whether the wrapper has been freed. -/
structure TtySnapshot where
  flag : Bool
  callMade : Bool
  succeeded : Bool
  freed : Bool
deriving DecidableEq

/-- The sequence of snapshots along `uwt_tty_init` in source order:
after wrapper creation, after the `h->initialized = 1` assignment (made
before the native call), after `uv_tty_init` returns, and — on a
negative status — after the wrapper is freed. -/
def uwt_tty_init_states (initRes : Int) : List TtySnapshot :=
  let s0 : TtySnapshot := { flag := false, callMade := false, succeeded := false, freed := false }
  let s1 : TtySnapshot := { s0 with flag := true }
  let s2 : TtySnapshot := { s1 with callMade := true, succeeded := decide (0 ≤ initRes) }
  if initRes < 0 then [s0, s1, s2, { s2 with freed := true }] else [s0, s1, s2]

/-! Branch characterisations of `uwt_fs_poll_start`. -/

theorem fs_poll_start_init_err (o_path : List Char) (o_interval : Int) (env : FsPollEnv)
    (hs : uwt_is_safe_string o_path = true)
    (hn : first_byte_is_nul o_path = false)
    (hf : uint_fits o_interval = true)
    (hl : env.loopOk = true)
    (h1 : env.initRes < 0) :
    uwt_fs_poll_start o_path o_interval env =
      (.Error (Val_uwt_error env.initRes),
       [.grEnlarge, .allocHandle, .nativeInit env.initRes, .freeHandle]) := by
  simp [uwt_fs_poll_start, hs, hn, hf, hl, h1]

theorem fs_poll_start_start_err (o_path : List Char) (o_interval : Int) (env : FsPollEnv)
    (hs : uwt_is_safe_string o_path = true)
    (hn : first_byte_is_nul o_path = false)
    (hf : uint_fits o_interval = true)
    (hl : env.loopOk = true)
    (h1 : 0 ≤ env.initRes)
    (h2 : env.startRes < 0) :
    uwt_fs_poll_start o_path o_interval env =
      (.Error (Val_uwt_error env.startRes),
       [.grEnlarge, .allocHandle, .nativeInit env.initRes,
        .nativeStart env.startRes, .closeHandle]) := by
  simp [uwt_fs_poll_start, hs, hn, hf, hl, h2, show ¬env.initRes < 0 from not_lt.mpr h1]

theorem fs_poll_start_ok (o_path : List Char) (o_interval : Int) (env : FsPollEnv)
    (hs : uwt_is_safe_string o_path = true)
    (hn : first_byte_is_nul o_path = false)
    (hf : uint_fits o_interval = true)
    (hl : env.loopOk = true)
    (h1 : 0 ≤ env.initRes)
    (h2 : 0 ≤ env.startRes) :
    uwt_fs_poll_start o_path o_interval env =
      (.Ok { ptr := 1, registered := [.cb_read, .cb_listen] },
       [.grEnlarge, .allocHandle, .nativeInit env.initRes,
        .nativeStart env.startRes, .grRegister .cb_read, .grRegister .cb_listen]) := by
  simp [uwt_fs_poll_start, hs, hn, hf, hl,
    show ¬env.initRes < 0 from not_lt.mpr h1,
    show ¬env.startRes < 0 from not_lt.mpr h2]

theorem fs_poll_start_validation_fail (o_path : List Char) (o_interval : Int) (env : FsPollEnv)
    (h : uwt_is_safe_string o_path = false ∨ first_byte_is_nul o_path = true ∨
         uint_fits o_interval = false ∨ env.loopOk = false) :
    (uwt_fs_poll_start o_path o_interval env).2 = [] := by
  by_cases hs : uwt_is_safe_string o_path = true
  · by_cases hn : first_byte_is_nul o_path = true
    · simp [uwt_fs_poll_start, hs, hn]
    · by_cases hf : uint_fits o_interval = true
      · by_cases hl : env.loopOk = true
        · rcases h with h | h | h | h <;> simp_all
        · simp [uwt_fs_poll_start, hs, hn, hf, hl]
      · simp [uwt_fs_poll_start, hs, hn, hf]
  · simp [uwt_fs_poll_start, hs]

/-! Branch characterisations of `fs_poll_lifecycle`. -/

theorem fs_poll_lifecycle_validation_fail (o_path : List Char) (o_interval : Int)
    (env : FsPollEnv)
    (h : uwt_is_safe_string o_path = false ∨ first_byte_is_nul o_path = true ∨
         uint_fits o_interval = false ∨ env.loopOk = false) :
    fs_poll_lifecycle o_path o_interval env = [] := by
  by_cases hs : uwt_is_safe_string o_path = true
  · by_cases hn : first_byte_is_nul o_path = true
    · simp [fs_poll_lifecycle, uwt_fs_poll_start, hs, hn, countP]
    · by_cases hf : uint_fits o_interval = true
      · by_cases hl : env.loopOk = true
        · rcases h with h | h | h | h <;> simp_all
        · simp [fs_poll_lifecycle, uwt_fs_poll_start, hs, hn, hf, hl, countP]
      · simp [fs_poll_lifecycle, uwt_fs_poll_start, hs, hn, hf, countP]
  · simp [fs_poll_lifecycle, uwt_fs_poll_start, hs, countP]

theorem fs_poll_lifecycle_init_err (o_path : List Char) (o_interval : Int) (env : FsPollEnv)
    (hs : uwt_is_safe_string o_path = true)
    (hn : first_byte_is_nul o_path = false)
    (hf : uint_fits o_interval = true)
    (hl : env.loopOk = true)
    (h1 : env.initRes < 0) :
    fs_poll_lifecycle o_path o_interval env =
      [.grEnlarge, .allocHandle, .nativeInit env.initRes, .freeHandle] := by
  unfold fs_poll_lifecycle
  rw [fs_poll_start_init_err o_path o_interval env hs hn hf hl h1]
  simp [countP, isCloseReq]

theorem fs_poll_lifecycle_start_err (o_path : List Char) (o_interval : Int) (env : FsPollEnv)
    (hs : uwt_is_safe_string o_path = true)
    (hn : first_byte_is_nul o_path = false)
    (hf : uint_fits o_interval = true)
    (hl : env.loopOk = true)
    (h1 : 0 ≤ env.initRes)
    (h2 : env.startRes < 0) :
    fs_poll_lifecycle o_path o_interval env =
      [.grEnlarge, .allocHandle, .nativeInit env.initRes,
       .nativeStart env.startRes, .closeHandle, .freeHandle] := by
  unfold fs_poll_lifecycle
  rw [fs_poll_start_start_err o_path o_interval env hs hn hf hl h1 h2]
  simp [countP, isCloseReq, close_sequence]

theorem fs_poll_lifecycle_ok (o_path : List Char) (o_interval : Int) (env : FsPollEnv)
    (hs : uwt_is_safe_string o_path = true)
    (hn : first_byte_is_nul o_path = false)
    (hf : uint_fits o_interval = true)
    (hl : env.loopOk = true)
    (h1 : 0 ≤ env.initRes)
    (h2 : 0 ≤ env.startRes) :
    fs_poll_lifecycle o_path o_interval env =
      [.grEnlarge, .allocHandle, .nativeInit env.initRes,
       .nativeStart env.startRes, .grRegister .cb_read, .grRegister .cb_listen,
       .grRelease .cb_read, .grRelease .cb_listen, .freeHandle] := by
  unfold fs_poll_lifecycle
  rw [fs_poll_start_ok o_path o_interval env hs hn hf hl h1 h2]
  simp [close_sequence]

/-! Claim theorems. -/

/-- C1: Two-phase teardown is a function of how far initialization got.
In uwt_fs_poll_start, past validation: a negative native init status
frees the wrapper outright (one free, no close request, no registry
registration or release) and returns the translated error
synchronously; a non-negative init status followed by a negative start
status tears the handle down through the native close sequence (a close
request, no direct free in the stub) and returns the translated error;
and over the whole lifecycle the free routine runs at most once. -/
theorem C1_two_phase_teardown (o_path : List Char) (o_interval : Int) (env : FsPollEnv)
    (hs : uwt_is_safe_string o_path = true)
    (hn : first_byte_is_nul o_path = false)
    (hf : uint_fits o_interval = true)
    (hl : env.loopOk = true) :
    (env.initRes < 0 →
      (uwt_fs_poll_start o_path o_interval env).1 = .Error (Val_uwt_error env.initRes) ∧
      countP isFree (uwt_fs_poll_start o_path o_interval env).2 = 1 ∧
      countP isCloseReq (uwt_fs_poll_start o_path o_interval env).2 = 0 ∧
      countP isRegister (uwt_fs_poll_start o_path o_interval env).2 = 0 ∧
      countP isRelease (uwt_fs_poll_start o_path o_interval env).2 = 0) ∧
    (0 ≤ env.initRes → env.startRes < 0 →
      (uwt_fs_poll_start o_path o_interval env).1 = .Error (Val_uwt_error env.startRes) ∧
      countP isCloseReq (uwt_fs_poll_start o_path o_interval env).2 = 1 ∧
      countP isFree (uwt_fs_poll_start o_path o_interval env).2 = 0) ∧
    countP isFree (fs_poll_lifecycle o_path o_interval env) ≤ 1 := by
  refine ⟨fun h1 => ?_, fun h1 h2 => ?_, ?_⟩
  · rw [fs_poll_start_init_err o_path o_interval env hs hn hf hl h1]
    simp [countP, isFree, isCloseReq, isRegister, isRelease]
  · rw [fs_poll_start_start_err o_path o_interval env hs hn hf hl h1 h2]
    simp [countP, isFree, isCloseReq]
  · by_cases h1 : env.initRes < 0
    · rw [fs_poll_lifecycle_init_err o_path o_interval env hs hn hf hl h1]
      simp [countP, isFree]
    · by_cases h2 : env.startRes < 0
      · rw [fs_poll_lifecycle_start_err o_path o_interval env hs hn hf hl
          (not_lt.mp h1) h2]
        simp [countP, isFree]
      · rw [fs_poll_lifecycle_ok o_path o_interval env hs hn hf hl
          (not_lt.mp h1) (not_lt.mp h2)]
        simp [countP, isFree, isRelease]

/-- Witness for C1 at path "a", interval 100, a loop lookup that
succeeds, native init status -9 and native start status 0. -/
theorem C1_two_phase_teardown_witness :
    (uwt_fs_poll_start ['a'] 100 ⟨true, -9, 0⟩).1 = .Error (Val_uwt_error (-9)) :=
  ((C1_two_phase_teardown ['a'] 100 ⟨true, -9, 0⟩ (by decide) (by decide)
      (by decide) rfl).1 (by decide)).1

/-- C2: Registration cardinality.  The filtered registration subtrace
of uwt_fs_poll_start is either empty or exactly the two registrations
cb_read then cb_listen; the latter happens exactly on the path where
both native calls succeeded and the Ok handle is returned; the
registration count is never one; and over the whole lifecycle the
number of registry releases equals the number of registrations, itself
zero or two. -/
theorem C2_registration_cardinality (o_path : List Char) (o_interval : Int)
    (env : FsPollEnv) :
    (((uwt_fs_poll_start o_path o_interval env).2.filter isRegister) = [] ∨
      (((uwt_fs_poll_start o_path o_interval env).2.filter isRegister)
          = [Act.grRegister .cb_read, Act.grRegister .cb_listen] ∧
        0 ≤ env.initRes ∧ 0 ≤ env.startRes ∧
        (uwt_fs_poll_start o_path o_interval env).1
          = .Ok { ptr := 1, registered := [Slot.cb_read, Slot.cb_listen] })) ∧
    countP isRegister (uwt_fs_poll_start o_path o_interval env).2 ≠ 1 ∧
    countP isRelease (fs_poll_lifecycle o_path o_interval env)
      = countP isRegister (fs_poll_lifecycle o_path o_interval env) ∧
    (countP isRelease (fs_poll_lifecycle o_path o_interval env) = 0 ∨
     countP isRelease (fs_poll_lifecycle o_path o_interval env) = 2) := by
  by_cases hs : uwt_is_safe_string o_path = true
  · by_cases hn : first_byte_is_nul o_path = false
    · by_cases hf : uint_fits o_interval = true
      · by_cases hl : env.loopOk = true
        · by_cases h1 : env.initRes < 0
          · rw [fs_poll_start_init_err o_path o_interval env hs hn hf hl h1,
              fs_poll_lifecycle_init_err o_path o_interval env hs hn hf hl h1]
            simp [countP, isRegister, isRelease]
          · by_cases h2 : env.startRes < 0
            · rw [fs_poll_start_start_err o_path o_interval env hs hn hf hl
                  (not_lt.mp h1) h2,
                fs_poll_lifecycle_start_err o_path o_interval env hs hn hf hl
                  (not_lt.mp h1) h2]
              simp [countP, isRegister, isRelease]
            · rw [fs_poll_start_ok o_path o_interval env hs hn hf hl
                  (not_lt.mp h1) (not_lt.mp h2),
                fs_poll_lifecycle_ok o_path o_interval env hs hn hf hl
                  (not_lt.mp h1) (not_lt.mp h2)]
              refine ⟨Or.inr ⟨by simp [isRegister], not_lt.mp h1, not_lt.mp h2, rfl⟩,
                ?_, ?_, ?_⟩ <;> simp [countP, isRegister, isRelease]
        · have hv : uwt_is_safe_string o_path = false ∨ first_byte_is_nul o_path = true ∨
              uint_fits o_interval = false ∨ env.loopOk = false :=
            Or.inr (Or.inr (Or.inr (by simpa using hl)))
          rw [fs_poll_start_validation_fail o_path o_interval env hv,
            fs_poll_lifecycle_validation_fail o_path o_interval env hv]
          simp [countP]
      · have hv : uwt_is_safe_string o_path = false ∨ first_byte_is_nul o_path = true ∨
            uint_fits o_interval = false ∨ env.loopOk = false :=
          Or.inr (Or.inr (Or.inl (by simpa using hf)))
        rw [fs_poll_start_validation_fail o_path o_interval env hv,
          fs_poll_lifecycle_validation_fail o_path o_interval env hv]
        simp [countP]
    · have hv : uwt_is_safe_string o_path = false ∨ first_byte_is_nul o_path = true ∨
          uint_fits o_interval = false ∨ env.loopOk = false :=
        Or.inr (Or.inl (by simpa using hn))
      rw [fs_poll_start_validation_fail o_path o_interval env hv,
        fs_poll_lifecycle_validation_fail o_path o_interval env hv]
      simp [countP]
  · have hv : uwt_is_safe_string o_path = false ∨ first_byte_is_nul o_path = true ∨
        uint_fits o_interval = false ∨ env.loopOk = false :=
      Or.inl (by simpa using hs)
    rw [fs_poll_start_validation_fail o_path o_interval env hv,
      fs_poll_lifecycle_validation_fail o_path o_interval env hv]
    simp [countP]

/-- Witness for C2 at path "a", interval 100, both native calls
succeeding. -/
theorem C2_registration_cardinality_witness :
    countP isRelease (fs_poll_lifecycle ['a'] 100 ⟨true, 0, 0⟩)
      = countP isRegister (fs_poll_lifecycle ['a'] 100 ⟨true, 0, 0⟩) :=
  (C2_registration_cardinality ['a'] 100 ⟨true, 0, 0⟩).2.2.1

/-- C3: Validation precedes allocation in uwt_fs_poll_start: an unsafe
path yields Error ECHARSET synchronously, an empty path or an interval
outside the native unsigned width yields Error EINVAL synchronously,
and on every such validation failure the trace records no wrapper
allocation and no native call. -/
theorem C3_validation_precedes_allocation (o_path : List Char) (o_interval : Int)
    (env : FsPollEnv) :
    (uwt_is_safe_string o_path = false →
      uwt_fs_poll_start o_path o_interval env = (.Error .ECHARSET, [])) ∧
    (o_path = [] →
      uwt_fs_poll_start o_path o_interval env = (.Error .EINVAL, [])) ∧
    (uwt_is_safe_string o_path = true → uint_fits o_interval = false →
      uwt_fs_poll_start o_path o_interval env = (.Error .EINVAL, [])) ∧
    (uwt_is_safe_string o_path = false ∨ first_byte_is_nul o_path = true ∨
        uint_fits o_interval = false →
      countP isAlloc (uwt_fs_poll_start o_path o_interval env).2 = 0 ∧
      countP isNative (uwt_fs_poll_start o_path o_interval env).2 = 0) := by
  refine ⟨fun h => ?_, fun h => ?_, fun hsafe h => ?_, fun h => ?_⟩
  · simp [uwt_fs_poll_start, h]
  · subst h
    simp [uwt_fs_poll_start, uwt_is_safe_string, first_byte_is_nul]
  · by_cases hn : first_byte_is_nul o_path = true
    · simp [uwt_fs_poll_start, hsafe, hn]
    · simp [uwt_fs_poll_start, hsafe, hn, h]
  · have h2 := fs_poll_start_validation_fail o_path o_interval env
      (by rcases h with h | h | h <;> tauto)
    rw [h2]
    simp [countP]

/-- Witness for C3 at the empty path, interval 100. -/
theorem C3_validation_precedes_allocation_witness :
    uwt_fs_poll_start [] 100 ⟨true, 0, 0⟩ = (.Error .EINVAL, []) :=
  (C3_validation_precedes_allocation [] 100 ⟨true, 0, 0⟩).2.1 rfl

theorem run_registry_two_registrations (a b : Int) (r : Registry) :
    (run_registry [.grEnlarge, .allocHandle, .nativeInit a, .nativeStart b,
      .grRegister .cb_read, .grRegister .cb_listen] r).isSome = true := by
  have h1 : (gr_root_enlarge r).used = r.used := by
    unfold gr_root_enlarge
    split <;> rfl
  have h2 : r.used + 2 ≤ (gr_root_enlarge r).cap := by
    unfold gr_root_enlarge
    split
    · simp
    · omega
  have e1 : gr_register (gr_root_enlarge r)
      = some { gr_root_enlarge r with used := (gr_root_enlarge r).used + 1 } := by
    unfold gr_register
    rw [if_pos (by omega)]
  have e2 : gr_register { gr_root_enlarge r with used := (gr_root_enlarge r).used + 1 }
      = some { gr_root_enlarge r with used := (gr_root_enlarge r).used + 1 + 1 } := by
    unfold gr_register
    rw [if_pos (by simp; omega)]
  simp [run_registry, e1, e2]

/-- C8: Enlarge-before-pin ordering: in every uwt_fs_poll_start trace
no registration precedes the registry enlargement, and replaying the
trace against any registry state never finds the table full at a
registration — the two registrations after a successful native start
cannot fail for lack of registry space. -/
theorem C8_enlarge_before_pin (o_path : List Char) (o_interval : Int) (env : FsPollEnv)
    (r : Registry) :
    enlarge_before_register (uwt_fs_poll_start o_path o_interval env).2 = true ∧
    (run_registry (uwt_fs_poll_start o_path o_interval env).2 r).isSome = true := by
  by_cases hs : uwt_is_safe_string o_path = true
  · by_cases hn : first_byte_is_nul o_path = false
    · by_cases hf : uint_fits o_interval = true
      · by_cases hl : env.loopOk = true
        · by_cases h1 : env.initRes < 0
          · rw [fs_poll_start_init_err o_path o_interval env hs hn hf hl h1]
            simp [enlarge_before_register, run_registry, gr_root_enlarge]
          · by_cases h2 : env.startRes < 0
            · rw [fs_poll_start_start_err o_path o_interval env hs hn hf hl
                (not_lt.mp h1) h2]
              simp [enlarge_before_register, run_registry, gr_root_enlarge]
            · rw [fs_poll_start_ok o_path o_interval env hs hn hf hl
                (not_lt.mp h1) (not_lt.mp h2)]
              exact ⟨rfl, run_registry_two_registrations env.initRes env.startRes r⟩
        · rw [fs_poll_start_validation_fail o_path o_interval env
            (Or.inr (Or.inr (Or.inr (by simpa using hl))))]
          simp [enlarge_before_register, run_registry]
      · rw [fs_poll_start_validation_fail o_path o_interval env
          (Or.inr (Or.inr (Or.inl (by simpa using hf))))]
        simp [enlarge_before_register, run_registry]
    · rw [fs_poll_start_validation_fail o_path o_interval env
        (Or.inr (Or.inl (by simpa using hn)))]
      simp [enlarge_before_register, run_registry]
  · rw [fs_poll_start_validation_fail o_path o_interval env
      (Or.inl (by simpa using hs))]
    simp [enlarge_before_register, run_registry]

/-- Witness for C8 at path "a", interval 100, both native calls
succeeding, an initially full registry of capacity 0. -/
theorem C8_enlarge_before_pin_witness :
    enlarge_before_register (uwt_fs_poll_start ['a'] 100 ⟨true, 0, 0⟩).2 = true :=
  (C8_enlarge_before_pin ['a'] 100 ⟨true, 0, 0⟩ ⟨0, 0⟩).1

/-- C4: Dispatcher result delivery: when the fs-poll trampoline runs
for a handle the dispatcher has not closed, the user callback is
invoked exactly once with the handle value; the result it receives is
Error of the translated status when the status is negative, and Ok of
the pair built by copying the two native stat records when it is
non-negative (the result type carries exactly one tag by
construction). -/
theorem C4_dispatch_result_delivery (hListenVal : Nat) (status : Int)
    (prev curr : Stat) :
    (fs_poll_cb false hListenVal status prev curr).length = 1 ∧
    (status < 0 →
      fs_poll_cb false hListenVal status prev curr
        = [{ handleVal := hListenVal, param := .Error (Val_uwt_error status) }]) ∧
    (0 ≤ status →
      fs_poll_cb false hListenVal status prev curr
        = [{ handleVal := hListenVal,
             param := .Ok (uwt__stat_to_value prev, uwt__stat_to_value curr) }]) := by
  refine ⟨?_, fun h => ?_, fun h => ?_⟩
  · by_cases h : status < 0 <;> simp [fs_poll_cb, h]
  · simp [fs_poll_cb, h]
  · simp [fs_poll_cb, not_lt.mpr h]

/-- Witness for C4 at handle value 5, status 0 and two concrete stat
records. -/
theorem C4_dispatch_result_delivery_witness :
    fs_poll_cb false 5 0 ⟨1, 2, 3, 4⟩ ⟨1, 2, 7, 9⟩
      = [{ handleVal := 5,
           param := .Ok (uwt__stat_to_value ⟨1, 2, 3, 4⟩, uwt__stat_to_value ⟨1, 2, 7, 9⟩) }] :=
  (C4_dispatch_result_delivery 5 0 ⟨1, 2, 3, 4⟩ ⟨1, 2, 7, 9⟩).2.2 (by decide)

/-- C6: Terminal mode mapping in uwt_tty_set_mode_na: 0 maps to
UV_TTY_MODE_NORMAL, 1 to UV_TTY_MODE_RAW, 2 to UV_TTY_MODE_IO; every
value outside these three fires the programming-error assertion of the
default case, whose fall-through makes NORMAL the defined default. -/
theorem C6_tty_mode_mapping :
    uwt_tty_mode_of 0 = (false, .normal) ∧
    uwt_tty_mode_of 1 = (false, .raw) ∧
    uwt_tty_mode_of 2 = (false, .io) ∧
    (∀ m : Int, m ≠ 0 → m ≠ 1 → m ≠ 2 → uwt_tty_mode_of m = (true, .normal)) := by
  refine ⟨by decide, by decide, by decide, fun m h0 h1 h2 => ?_⟩
  simp [uwt_tty_mode_of, h0, h1, h2]

/-- Witness for C6 at the out-of-range mode 5. -/
theorem C6_tty_mode_mapping_witness :
    uwt_tty_mode_of 5 = (true, .normal) :=
  C6_tty_mode_mapping.2.2.2 5 (by decide) (by decide) (by decide)

/-- C7: setOption failure is not fatal: when the native layer rejects
the requested terminal mode with a negative status, uwt_tty_set_mode
returns Error of the translated status as a value, the handle state is
unchanged, and the trace records no free, no close request and no
registry release. -/
theorem C7_set_mode_failure_not_fatal (h : TtyHandle) (o_mode : Int)
    (envRes : UvTtyMode → Int)
    (hptr : h.ptr ≠ 0) (hcl : h.closed = false)
    (hneg : envRes (uwt_tty_mode_of o_mode).2 < 0) :
    (uwt_tty_set_mode h o_mode envRes).1
      = .Error (Val_uwt_error (envRes (uwt_tty_mode_of o_mode).2)) ∧
    (uwt_tty_set_mode h o_mode envRes).2.1 = h ∧
    countP isFree (uwt_tty_set_mode h o_mode envRes).2.2 = 0 ∧
    countP isCloseReq (uwt_tty_set_mode h o_mode envRes).2.2 = 0 ∧
    countP isRelease (uwt_tty_set_mode h o_mode envRes).2.2 = 0 := by
  have hg : ¬(h.ptr = 0 ∨ h.closed = true) := by
    rintro (h1 | h1)
    · exact hptr h1
    · rw [hcl] at h1
      exact Bool.false_ne_true h1
  simp [uwt_tty_set_mode, hg, VAL_UWT_UNIT_RESULT, hneg, countP, isFree,
    isCloseReq, isRelease]

/-- Witness for C7: an Active handle, mode request 2, native layer
answering -22 for every mode. -/
theorem C7_set_mode_failure_not_fatal_witness :
    (uwt_tty_set_mode ⟨1, true, false, [.cb_read, .cb_listen]⟩ 2 (fun _ => -22)).1
      = .Error (Val_uwt_error (-22)) :=
  (C7_set_mode_failure_not_fatal ⟨1, true, false, [.cb_read, .cb_listen]⟩ 2
    (fun _ => -22) (by decide) rfl (by decide)).1

/-- C9: Error round-trip: on the supported range the Error Code
Translator is injective and inspecting the produced error value
recovers the translated code. -/
theorem C9_error_round_trip (c1 c2 : Int)
    (h1 : c1 ∈ uwt_supported_codes) (h2 : c2 ∈ uwt_supported_codes) :
    uwt_err_code (Val_uwt_error c1) = c1 ∧
    (Val_uwt_error c1 = Val_uwt_error c2 → c1 = c2) := by
  have key : ∀ c ∈ uwt_supported_codes, uwt_err_code (Val_uwt_error c) = c := by
    intro c hc
    simp [uwt_supported_codes] at hc
    rcases hc with h | h | h | h | h | h | h | h | h <;> subst h <;> decide
  refine ⟨key c1 h1, fun he => ?_⟩
  rw [← key c1 h1, he, key c2 h2]

/-- Witness for C9 at the codes -7 and -22. -/
theorem C9_error_round_trip_witness :
    uwt_err_code (Val_uwt_error (-7)) = -7 :=
  (C9_error_round_trip (-7) (-22) (by decide) (by decide)).1

/-- C10: uwt_tty_init performs no host-side validation: on every
argument triple the trace contains exactly one native call, the init
call itself; every Error it returns is the translation of the negative
native init status (so it originates in the native layer, never in a
host validation check); and on native failure the wrapper is freed and
the returned wrapper value's handle field is cleared to 0. -/
theorem C10_tty_init_no_validation (fd : Int) (readable : Bool) (initRes : Int) :
    countP isNative (uwt_tty_init fd readable initRes).2.2 = 1 ∧
    Act.nativeInit initRes ∈ (uwt_tty_init fd readable initRes).2.2 ∧
    (∀ e, (uwt_tty_init fd readable initRes).1 = .Error e →
      e = Val_uwt_error initRes ∧ initRes < 0) ∧
    (initRes < 0 →
      (uwt_tty_init fd readable initRes).1 = .Error (Val_uwt_error initRes) ∧
      (uwt_tty_init fd readable initRes).2.1.ptr = 0 ∧
      countP isFree (uwt_tty_init fd readable initRes).2.2 = 1) := by
  by_cases h : initRes < 0 <;>
    simp [uwt_tty_init, h, countP, isNative, isFree]

/-- Witness for C10 at fd 0, readable true, native init status -9. -/
theorem C10_tty_init_no_validation_witness :
    (uwt_tty_init 0 true (-9)).1 = .Error (Val_uwt_error (-9)) :=
  ((C10_tty_init_no_validation 0 true (-9)).2.2.2 (by decide)).1

/-- C5 counterexample: in uwt_tty_init the initialized flag is assigned
before `uv_tty_init` is called, so (native init status 0) the snapshot
right after the assignment has the flag true although the native init
call has not yet been made, refuting the claim that the flag is true
only when the native init call has succeeded. -/
theorem C5_initialized_flag_counterexample :
    ¬(∀ s ∈ uwt_tty_init_states 0, s.flag = true →
        s.callMade = true ∧ s.succeeded = true) := by
  decide

/-- C5 amended: uwt_tty_init sets the initialized flag eagerly, before
the native init call (some reachable snapshot has the flag true with
the call not yet made); but for the state visible at return, a wrapper
that is still live (not freed) has the flag true with the native init
call made and succeeded, and a failed native init always ends freed —
so no live handle ever shows the flag without a successful native
init. -/
theorem C5_initialized_flag_amended (initRes : Int) (s : TtySnapshot)
    (hlast : (uwt_tty_init_states initRes).getLast? = some s) :
    (∃ s1 ∈ uwt_tty_init_states initRes, s1.flag = true ∧ s1.callMade = false) ∧
    (s.freed = false → s.flag = true ∧ s.callMade = true ∧ s.succeeded = true) ∧
    (s.succeeded = false → s.freed = true) := by
  by_cases h : initRes < 0
  · have hd : decide (0 ≤ initRes) = false := by simpa using not_le.mpr h
    rw [show uwt_tty_init_states initRes
        = [⟨false, false, false, false⟩, ⟨true, false, false, false⟩,
           ⟨true, true, false, false⟩, ⟨true, true, false, true⟩] from by
      simp [uwt_tty_init_states, h, hd]] at hlast ⊢
    simp [List.getLast?] at hlast
    subst hlast
    refine ⟨⟨⟨true, false, false, false⟩, by simp, rfl, rfl⟩, by simp, by simp⟩
  · have hd : decide (0 ≤ initRes) = true := by simpa using not_lt.mp h
    rw [show uwt_tty_init_states initRes
        = [⟨false, false, false, false⟩, ⟨true, false, false, false⟩,
           ⟨true, true, true, false⟩] from by
      simp [uwt_tty_init_states, h, hd]] at hlast ⊢
    simp [List.getLast?] at hlast
    subst hlast
    refine ⟨⟨⟨true, false, false, false⟩, by simp, rfl, rfl⟩, by simp, by simp⟩

/-- Witness for C5 at native init status 0. -/
theorem C5_initialized_flag_amended_witness :
    ∃ s1 ∈ uwt_tty_init_states 0, s1.flag = true ∧ s1.callMade = false :=
  (C5_initialized_flag_amended 0 ⟨true, true, true, false⟩ (by decide)).1

end Uwt
